import Mathlib

/-
Verification of the pythonanywhere-core API client wrappers
(`pythonanywhere_core/schedule.py` and `pythonanywhere_core/website.py`).

The two manager classes are shallowly embedded as Lean functions.  An HTTP
round trip is modelled by an oracle `Api : Request → Response`; every manager
method returns the list of requests it issued (in order) together with its
outcome, an `Except PAErr` value whose `.error` constructor models a raised
exception and whose `.ok` value models the Python return value (with `Option`
for methods that may fall through and implicitly return `None`).
-/

/-- JSON-like values: decoded request and response bodies. -/
inductive Json where
  | null
  | bool (b : Bool)
  | num (n : Int)
  | str (s : String)
  | arr (items : List Json)
  | obj (fields : List (String × Json))

/-- Modelled from the spec: the transient API-response value object
`{status_code: integer, ok: boolean, text: raw body, json(): decoded body}`
produced by the API Invoker (`call_api` in `pythonanywhere_core.base`, which
is outside the analysed sources).  `ok` is derived from the status code, see
`Response.ok`. -/
structure Response where
  status_code : Nat
  text : String
  json : Json

/-- Modelled from the spec: the boolean ok flag exposed by the response
object.  Following the underlying HTTP library, a response is ok exactly when
its status code is outside the client/server error range 400..599. -/
def Response.ok (r : Response) : Bool :=
  if 400 ≤ r.status_code ∧ r.status_code < 600 then false else true

/-- The textual representation of a response object, as interpolated into the
failure messages (the HTTP library renders a response as
`<Response [status]>`). -/
def Response.reprStr (r : Response) : String :=
  "<Response [" ++ toString r.status_code ++ "]>"

/-- One HTTP request handed to `call_api`: url, method and optional JSON
payload (the `json=` keyword argument). -/
structure Request where
  url : String
  method : String
  body : Option Json

/-- Modelled from the spec: the API Invoker `call_api` performs one network
round trip per invocation and returns the raw response without interpreting
status codes.  An `Api` oracle assigns a response to every request. -/
abbrev Api := Request → Response

/-- Modelled from the spec: the exception classes of
`pythonanywhere_core.exceptions` (outside the analysed sources).
`SanityException` carries configuration and conflict errors,
`PythonAnywhereApiException` carries unexpected-status errors. -/
inductive PAErr where
  | SanityException (msg : String)
  | PythonAnywhereApiException (msg : String)

/-- The `Schedule` manager: its single piece of state is the precomputed
base url for the scheduled-tasks collection endpoint. -/
structure Schedule where
  base_url : String

namespace Schedule

/-- The request issued by `Schedule.create`: POST of `params` to the base
url. -/
def createRequest (s : Schedule) (params : Json) : Request :=
  ⟨s.base_url, "POST", some params⟩

/-- `Schedule.create(params)` from `schedule.py`: POST the params; on 201
return the decoded body, on a not-ok response raise
`PythonAnywhereApiException`, otherwise fall through (return `None`). -/
def create (s : Schedule) (api : Api) (params : Json) :
    List Request × Except PAErr (Option Json) :=
  let result := api (s.createRequest params)
  ([s.createRequest params],
    if result.status_code == 201 then .ok (some result.json)
    else if !result.ok then
      .error (.PythonAnywhereApiException
        ("POST to set new task via API failed, got " ++ result.reprStr ++ ": "
          ++ result.text))
    else .ok none)

/-- The request issued by `Schedule.delete`: DELETE on the task item url. -/
def deleteRequest (s : Schedule) (task_id : Int) : Request :=
  ⟨s.base_url ++ toString task_id ++ "/", "DELETE", none⟩

/-- `Schedule.delete(task_id)` from `schedule.py`: DELETE the task; on 204
return `True`, on a not-ok response raise `PythonAnywhereApiException`,
otherwise fall through (return `None`). -/
def delete (s : Schedule) (api : Api) (task_id : Int) :
    List Request × Except PAErr (Option Bool) :=
  let result := api (s.deleteRequest task_id)
  ([s.deleteRequest task_id],
    if result.status_code == 204 then .ok (some true)
    else if !result.ok then
      .error (.PythonAnywhereApiException
        ("DELETE via API on task " ++ toString task_id ++ " failed, got "
          ++ result.reprStr ++ ": " ++ result.text))
    else .ok none)

/-- The request issued by `Schedule.get_list`: GET on the base url. -/
def get_listRequest (s : Schedule) : Request :=
  ⟨s.base_url, "GET", none⟩

/-- `Schedule.get_list()` from `schedule.py`: GET the collection and return
the decoded body, with no status inspection. -/
def get_list (s : Schedule) (api : Api) : List Request × Json :=
  ([s.get_listRequest], (api s.get_listRequest).json)

/-- The request issued by `Schedule.get_specs`: GET on the task item url. -/
def get_specsRequest (s : Schedule) (task_id : Int) : Request :=
  ⟨s.base_url ++ toString task_id ++ "/", "GET", none⟩

/-- `Schedule.get_specs(task_id)` from `schedule.py`: GET the task; on 200
return the decoded body, otherwise raise `PythonAnywhereApiException`. -/
def get_specs (s : Schedule) (api : Api) (task_id : Int) :
    List Request × Except PAErr Json :=
  let result := api (s.get_specsRequest task_id)
  ([s.get_specsRequest task_id],
    if result.status_code == 200 then .ok result.json
    else
      .error (.PythonAnywhereApiException
        ("Could not get task with id " ++ toString task_id ++ ". Got result "
          ++ result.reprStr ++ ": " ++ result.text)))

/-- The request issued by `Schedule.update`: PATCH of `params` to the task
item url. -/
def updateRequest (s : Schedule) (task_id : Int) (params : Json) : Request :=
  ⟨s.base_url ++ toString task_id ++ "/", "PATCH", some params⟩

/-- `Schedule.update(task_id, params)` from `schedule.py`: PATCH the task; on
200 return the decoded body, otherwise raise `PythonAnywhereApiException`. -/
def update (s : Schedule) (api : Api) (task_id : Int) (params : Json) :
    List Request × Except PAErr Json :=
  let result := api (s.updateRequest task_id params)
  ([s.updateRequest task_id params],
    if result.status_code == 200 then .ok result.json
    else
      .error (.PythonAnywhereApiException
        ("Could not update task " ++ toString task_id ++ ". Got "
          ++ result.reprStr ++ ": " ++ result.text)))

end Schedule

/-- The `Website` manager: holds the precomputed base urls for the websites
and domains collection endpoints. -/
structure Website where
  websites_base_url : String
  domains_base_url : String

namespace Website

/-- The message raised by the sanity check when the API token is missing:
the `dedent` of the triple-quoted literal in `website.py`. -/
def tokenMissingMsg : String :=
  "\nCould not find your API token.\nYou may need to create it on the Accounts page?\nYou will also need to close this console and open a new one once you\x27ve done that.\n"

/-- The conflict message raised by the sanity check when a webapp already
exists for the domain. -/
def conflictMsg (domain_name : String) : String :=
  "You already have a webapp for " ++ domain_name
    ++ ".\n\nUse the --nuke option if you want to replace it."

/-- The existence probe issued by `Website.sanity_check`, which is also the
request issued by `Website.get`: GET on the websites item endpoint for the
domain. -/
def probeRequest (w : Website) (domain_name : String) : Request :=
  ⟨w.websites_base_url ++ domain_name ++ "/", "get", none⟩

/-- `Website.sanity_check(domain_name, nuke)` from `website.py`.  The
`api_token` argument models `os.environ.get("API_TOKEN")`; Python treats both
an absent and an empty variable as falsy.  Raises `SanityException` when the
token is missing, returns at once when `nuke` is set, otherwise issues the
existence probe and raises `SanityException` when it answers 200. -/
def sanity_check (w : Website) (api : Api) (api_token : Option String)
    (domain_name : String) (nuke : Bool) :
    List Request × Except PAErr Unit :=
  if (api_token.getD "").isEmpty then
    ([], .error (.SanityException tokenMissingMsg))
  else if nuke then
    ([], .ok ())
  else
    let response := api (w.probeRequest domain_name)
    if response.status_code == 200 then
      ([w.probeRequest domain_name], .error (.SanityException (conflictMsg domain_name)))
    else
      ([w.probeRequest domain_name], .ok ())

/-- The create request issued by `Website.create`: POST of the website spec
to the websites base url. -/
def createRequest (w : Website) (domain_name command : String) : Request :=
  ⟨w.websites_base_url, "post",
    some (.obj [("domain_name", .str domain_name), ("enabled", .bool true),
                ("webapp", .obj [("command", .str command)])])⟩

/-- `Website.create(domain_name, command, nuke)` from `website.py`: run the
sanity check, then POST the new website spec and return the decoded body with
no status inspection. -/
def create (w : Website) (api : Api) (api_token : Option String)
    (domain_name command : String) (nuke : Bool) :
    List Request × Except PAErr Json :=
  let check := w.sanity_check api api_token domain_name nuke
  match check.2 with
  | .error e => (check.1, .error e)
  | .ok _ =>
    let response := api (w.createRequest domain_name command)
    (check.1 ++ [w.createRequest domain_name command], .ok response.json)

/-- `Website.get(domain_name)` from `website.py`: GET the websites item
endpoint (the same request as the existence probe) and return the decoded
body, with no status inspection. -/
def get (w : Website) (api : Api) (domain_name : String) :
    List Request × Json :=
  ([w.probeRequest domain_name], (api (w.probeRequest domain_name)).json)

/-- The request issued by `Website.list`: GET on the websites base url. -/
def listRequest (w : Website) : Request :=
  ⟨w.websites_base_url, "get", none⟩

/-- `Website.list()` from `website.py`: GET the collection and return the
decoded body, with no status inspection. -/
def list (w : Website) (api : Api) : List Request × Json :=
  ([w.listRequest], (api w.listRequest).json)

/-- The request issued by `Website.reload`: POST to the reload
sub-resource. -/
def reloadRequest (w : Website) (domain_name : String) : Request :=
  ⟨w.websites_base_url ++ domain_name ++ "/reload/", "post", none⟩

/-- `Website.reload(domain_name)` from `website.py`: POST to the reload
sub-resource and return the decoded body, with no status inspection. -/
def reload (w : Website) (api : Api) (domain_name : String) :
    List Request × Json :=
  ([w.reloadRequest domain_name], (api (w.reloadRequest domain_name)).json)

/-- The request issued by `Website.auto_ssl`: POST of the fixed certificate
payload to the domain ssl sub-resource. -/
def auto_sslRequest (w : Website) (domain_name : String) : Request :=
  ⟨w.domains_base_url ++ domain_name ++ "/ssl/", "post",
    some (.obj [("cert_type", .str "letsencrypt-auto-renew")])⟩

/-- `Website.auto_ssl(domain_name)` from `website.py`: POST the fixed
certificate payload and return the decoded body, with no status
inspection. -/
def auto_ssl (w : Website) (api : Api) (domain_name : String) :
    List Request × Json :=
  ([w.auto_sslRequest domain_name], (api (w.auto_sslRequest domain_name)).json)

/-- The request issued by `Website.get_ssl_info`: GET on the domain ssl
sub-resource. -/
def get_ssl_infoRequest (w : Website) (domain_name : String) : Request :=
  ⟨w.domains_base_url ++ domain_name ++ "/ssl/", "get", none⟩

/-- `Website.get_ssl_info(domain_name)` from `website.py`: GET the ssl
sub-resource; on a not-ok response raise `PythonAnywhereApiException`,
otherwise return the decoded body. -/
def get_ssl_info (w : Website) (api : Api) (domain_name : String) :
    List Request × Except PAErr Json :=
  let response := api (w.get_ssl_infoRequest domain_name)
  ([w.get_ssl_infoRequest domain_name],
    if !response.ok then
      .error (.PythonAnywhereApiException
        ("GET SSL details via API failed, got " ++ response.reprStr ++ ":"
          ++ response.text))
    else .ok response.json)

/-- The request issued by `Website.delete`: DELETE on the websites item
endpoint. -/
def deleteRequest (w : Website) (domain_name : String) : Request :=
  ⟨w.websites_base_url ++ domain_name ++ "/", "delete", none⟩

/-- `Website.delete(domain_name)` from `website.py`: issue the DELETE,
ignore the response entirely and return the empty mapping. -/
def delete (w : Website) (api : Api) (domain_name : String) :
    List Request × Json :=
  let _ := api (w.deleteRequest domain_name)
  ([w.deleteRequest domain_name], .obj [])

end Website

/-
Helper lemmas shared by the claim theorems below.
-/

lemma Response.ok_false_iff (r : Response) :
    r.ok = false ↔ 400 ≤ r.status_code ∧ r.status_code < 600 := by
  unfold Response.ok
  split <;> simp_all

lemma Response.ok_true_iff (r : Response) :
    r.ok = true ↔ ¬(400 ≤ r.status_code ∧ r.status_code < 600) := by
  unfold Response.ok
  split <;> simp_all

/-- C1: For every response to Schedule.create(params): a 201 status returns
the JSON-decoded body; a not-ok response (client/server error status) raises
the API exception carrying the status and the raw body text; an ok response
with a status other than 201 returns None. -/
theorem C1_schedule_create_cases (s : Schedule) (api : Api) (params : Json) :
    ((api (s.createRequest params)).status_code = 201 →
      (s.create api params).2 =
        Except.ok (some (api (s.createRequest params)).json)) ∧
    ((api (s.createRequest params)).ok = false →
      (s.create api params).2 =
        Except.error (PAErr.PythonAnywhereApiException
          ("POST to set new task via API failed, got "
            ++ (api (s.createRequest params)).reprStr ++ ": "
            ++ (api (s.createRequest params)).text))) ∧
    ((api (s.createRequest params)).ok = true →
      (api (s.createRequest params)).status_code ≠ 201 →
      (s.create api params).2 = Except.ok none) := by
  refine ⟨fun h => ?_, fun h => ?_, fun hok hs => ?_⟩
  · simp [Schedule.create, h]
  · have hs : (api (s.createRequest params)).status_code ≠ 201 := by
      have := (Response.ok_false_iff _).mp h
      omega
    simp [Schedule.create, hs, h]
  · simp [Schedule.create, hs, hok]

/-- C1 witness: a concrete 201 response makes create return the decoded
body. -/
theorem C1_schedule_create_cases_witness :
    (Schedule.create ⟨"u/"⟩ (fun _ => ⟨201, "body", Json.null⟩) (Json.obj [])).2 =
      Except.ok (some Json.null) :=
  (C1_schedule_create_cases ⟨"u/"⟩ (fun _ => ⟨201, "body", Json.null⟩)
    (Json.obj [])).1 rfl

/-- C3: For every response to Schedule.delete(task_id): a 204 status returns
True; a not-ok response raises the API exception; an ok response with a
status other than 204 falls through and returns None. -/
theorem C3_schedule_delete_cases (s : Schedule) (api : Api) (task_id : Int) :
    ((api (s.deleteRequest task_id)).status_code = 204 →
      (s.delete api task_id).2 = Except.ok (some true)) ∧
    ((api (s.deleteRequest task_id)).ok = false →
      (s.delete api task_id).2 =
        Except.error (PAErr.PythonAnywhereApiException
          ("DELETE via API on task " ++ toString task_id ++ " failed, got "
            ++ (api (s.deleteRequest task_id)).reprStr ++ ": "
            ++ (api (s.deleteRequest task_id)).text))) ∧
    ((api (s.deleteRequest task_id)).ok = true →
      (api (s.deleteRequest task_id)).status_code ≠ 204 →
      (s.delete api task_id).2 = Except.ok none) := by
  refine ⟨fun h => ?_, fun h => ?_, fun hok hs => ?_⟩
  · simp [Schedule.delete, h]
  · have hs : (api (s.deleteRequest task_id)).status_code ≠ 204 := by
      have := (Response.ok_false_iff _).mp h
      omega
    simp [Schedule.delete, hs, h]
  · simp [Schedule.delete, hs, hok]

/-- C3 witness: a concrete 204 response makes delete return True. -/
theorem C3_schedule_delete_cases_witness :
    (Schedule.delete ⟨"u/"⟩ (fun _ => ⟨204, "body", Json.null⟩) 7).2 =
      Except.ok (some true) :=
  (C3_schedule_delete_cases ⟨"u/"⟩ (fun _ => ⟨204, "body", Json.null⟩) 7).1 rfl

/-- C6: For every response to Website.get_ssl_info(domain_name): a not-ok
response raises the API exception carrying the status and raw text; an ok
response returns the JSON-decoded certificate mapping unchanged. -/
theorem C6_get_ssl_info_cases (w : Website) (api : Api) (domain_name : String) :
    ((api (w.get_ssl_infoRequest domain_name)).ok = false →
      (w.get_ssl_info api domain_name).2 =
        Except.error (PAErr.PythonAnywhereApiException
          ("GET SSL details via API failed, got "
            ++ (api (w.get_ssl_infoRequest domain_name)).reprStr ++ ":"
            ++ (api (w.get_ssl_infoRequest domain_name)).text))) ∧
    ((api (w.get_ssl_infoRequest domain_name)).ok = true →
      (w.get_ssl_info api domain_name).2 =
        Except.ok (api (w.get_ssl_infoRequest domain_name)).json) := by
  refine ⟨fun h => ?_, fun h => ?_⟩ <;> simp [Website.get_ssl_info, h]

/-- C6 witness: a concrete 404 (not-ok) response makes get_ssl_info raise
the API exception with the status and text interpolated. -/
theorem C6_get_ssl_info_cases_witness :
    (Website.get_ssl_info ⟨"wb/", "db/"⟩ (fun _ => ⟨404, "nope", Json.null⟩) "d").2 =
      Except.error (PAErr.PythonAnywhereApiException
        ("GET SSL details via API failed, got <Response [404]>:nope")) :=
  (C6_get_ssl_info_cases ⟨"wb/", "db/"⟩ (fun _ => ⟨404, "nope", Json.null⟩) "d").1
    (by decide)

/-- C7: For every response, Schedule.get_specs(task_id) and
Schedule.update(task_id, params) return the JSON-decoded body exactly when
the status is 200, and raise the API exception for every non-200 status. -/
theorem C7_get_specs_update_cases (s : Schedule) (api : Api) (task_id : Int)
    (params : Json) :
    ((api (s.get_specsRequest task_id)).status_code = 200 →
      (s.get_specs api task_id).2 =
        Except.ok (api (s.get_specsRequest task_id)).json) ∧
    ((api (s.get_specsRequest task_id)).status_code ≠ 200 →
      (s.get_specs api task_id).2 =
        Except.error (PAErr.PythonAnywhereApiException
          ("Could not get task with id " ++ toString task_id ++ ". Got result "
            ++ (api (s.get_specsRequest task_id)).reprStr ++ ": "
            ++ (api (s.get_specsRequest task_id)).text))) ∧
    ((api (s.updateRequest task_id params)).status_code = 200 →
      (s.update api task_id params).2 =
        Except.ok (api (s.updateRequest task_id params)).json) ∧
    ((api (s.updateRequest task_id params)).status_code ≠ 200 →
      (s.update api task_id params).2 =
        Except.error (PAErr.PythonAnywhereApiException
          ("Could not update task " ++ toString task_id ++ ". Got "
            ++ (api (s.updateRequest task_id params)).reprStr ++ ": "
            ++ (api (s.updateRequest task_id params)).text))) := by
  refine ⟨fun h => ?_, fun h => ?_, fun h => ?_, fun h => ?_⟩
  · simp [Schedule.get_specs, h]
  · simp [Schedule.get_specs, h]
  · simp [Schedule.update, h]
  · simp [Schedule.update, h]

/-- C7 witness: a concrete 200 response makes get_specs return the decoded
body. -/
theorem C7_get_specs_update_cases_witness :
    (Schedule.get_specs ⟨"u/"⟩ (fun _ => ⟨200, "body", Json.null⟩) 3).2 =
      Except.ok Json.null :=
  (C7_get_specs_update_cases ⟨"u/"⟩ (fun _ => ⟨200, "body", Json.null⟩) 3
    (Json.obj [])).1 rfl

/-- C8: Website.get, Website.list, Website.reload and Schedule.get_list
return the JSON-decoded body regardless of the status code and never raise:
each result equals the response body, and the result is unchanged under any
oracle that serves the same bodies with different statuses and texts. -/
theorem C8_passthrough (w : Website) (s : Schedule) (api api2 : Api)
    (domain_name : String)
    (hjson : ∀ q, (api q).json = (api2 q).json) :
    (w.get api domain_name).2 = (api (w.probeRequest domain_name)).json ∧
    (w.list api).2 = (api w.listRequest).json ∧
    (w.reload api domain_name).2 = (api (w.reloadRequest domain_name)).json ∧
    (s.get_list api).2 = (api s.get_listRequest).json ∧
    (w.get api domain_name).2 = (w.get api2 domain_name).2 ∧
    (w.list api).2 = (w.list api2).2 ∧
    (w.reload api domain_name).2 = (w.reload api2 domain_name).2 ∧
    (s.get_list api).2 = (s.get_list api2).2 := by
  refine ⟨rfl, rfl, rfl, rfl, ?_, ?_, ?_, ?_⟩ <;>
    simp [Website.get, Website.list, Website.reload, Schedule.get_list, hjson]

/-- C8 witness: with a not-ok 500 oracle and an ok 200 oracle serving the
same body, Website.get returns that body under both. -/
theorem C8_passthrough_witness :
    (Website.get ⟨"wb/", "db/"⟩ (fun _ => ⟨500, "err", Json.null⟩) "d").2 =
        (Website.get ⟨"wb/", "db/"⟩ (fun _ => ⟨200, "fine", Json.null⟩) "d").2 :=
  (C8_passthrough ⟨"wb/", "db/"⟩ ⟨"u/"⟩ (fun _ => ⟨500, "err", Json.null⟩)
    (fun _ => ⟨200, "fine", Json.null⟩) "d" (fun _ => rfl)).2.2.2.2.1

/-- C9: Website.delete(domain_name) issues the DELETE request on the item
endpoint and returns the empty mapping unconditionally, for every oracle:
no status inspection, no body decoding, no exception. -/
theorem C9_website_delete (w : Website) (api : Api) (domain_name : String) :
    w.delete api domain_name = ([w.deleteRequest domain_name], Json.obj []) :=
  rfl

/-- C2: With the API token present and nuke=false, Website.create first
issues the existence probe (GET on the websites item endpoint for the
domain); when the probe answers 200 it raises the conflict SanityException
and the probe is the only request issued — the create POST never happens. -/
theorem C2_create_conflict (w : Website) (api : Api) (api_token : Option String)
    (domain_name command : String)
    (htok : (api_token.getD "").isEmpty = false)
    (h200 : (api (w.probeRequest domain_name)).status_code = 200) :
    w.create api api_token domain_name command false =
      ([w.probeRequest domain_name],
        Except.error (PAErr.SanityException (Website.conflictMsg domain_name))) := by
  simp [Website.create, Website.sanity_check, htok, h200]

/-- C2 witness: concrete manager, token and 200-answering oracle. -/
theorem C2_create_conflict_witness :
    Website.create ⟨"wb/", "db/"⟩ (fun _ => ⟨200, "body", Json.null⟩)
        (some "tok") "d" "cmd" false =
      ([Website.probeRequest ⟨"wb/", "db/"⟩ "d"],
        Except.error (PAErr.SanityException (Website.conflictMsg "d"))) :=
  C2_create_conflict ⟨"wb/", "db/"⟩ (fun _ => ⟨200, "body", Json.null⟩)
    (some "tok") "d" "cmd" (by decide) rfl

/-- C5: For every nuke value, Website.create raises the configuration
SanityException when the API token is absent or empty, and it does so before
any network call: the issued-request trace is empty. -/
theorem C5_token_missing (w : Website) (api : Api) (api_token : Option String)
    (domain_name command : String) (nuke : Bool)
    (htok : (api_token.getD "").isEmpty = true) :
    w.create api api_token domain_name command nuke =
      ([], Except.error (PAErr.SanityException Website.tokenMissingMsg)) := by
  simp [Website.create, Website.sanity_check, htok]

/-- C5 witness: with the token variable absent and nuke=true, create raises
the configuration exception with no request issued. -/
theorem C5_token_missing_witness :
    Website.create ⟨"wb/", "db/"⟩ (fun _ => ⟨200, "body", Json.null⟩)
        none "d" "cmd" true =
      ([], Except.error (PAErr.SanityException Website.tokenMissingMsg)) :=
  C5_token_missing ⟨"wb/", "db/"⟩ (fun _ => ⟨200, "body", Json.null⟩)
    none "d" "cmd" true rfl

/-- C10: With the token present and nuke=false, the conflict SanityException
is raised by sanity_check exactly when the probe status is 200; for every
other probe status (404, other 2xx, 500, ...), sanity_check returns
normally and Website.create proceeds to issue the create POST after the
probe. -/
theorem C10_sanity_conflict_iff (w : Website) (api : Api)
    (api_token : Option String) (domain_name command : String)
    (htok : (api_token.getD "").isEmpty = false) :
    ((w.sanity_check api api_token domain_name false).2 =
        Except.error (PAErr.SanityException (Website.conflictMsg domain_name)) ↔
      (api (w.probeRequest domain_name)).status_code = 200) ∧
    ((api (w.probeRequest domain_name)).status_code ≠ 200 →
      (w.sanity_check api api_token domain_name false).2 = Except.ok () ∧
      w.create api api_token domain_name command false =
        ([w.probeRequest domain_name, w.createRequest domain_name command],
          Except.ok (api (w.createRequest domain_name command)).json)) := by
  constructor
  · by_cases h200 : (api (w.probeRequest domain_name)).status_code = 200 <;>
      simp [Website.sanity_check, htok, h200]
  · intro h200
    constructor
    · simp [Website.sanity_check, htok, h200]
    · simp [Website.create, Website.sanity_check, htok, h200]

/-- C10 witness: a 404 probe lets create proceed to the POST; a 200 probe is
exactly the conflict case of the equivalence. -/
theorem C10_sanity_conflict_iff_witness :
    Website.create ⟨"wb/", "db/"⟩ (fun _ => ⟨404, "body", Json.null⟩)
        (some "tok") "d" "cmd" false =
      ([Website.probeRequest ⟨"wb/", "db/"⟩ "d",
        Website.createRequest ⟨"wb/", "db/"⟩ "d" "cmd"],
        Except.ok Json.null) :=
  ((C10_sanity_conflict_iff ⟨"wb/", "db/"⟩ (fun _ => ⟨404, "body", Json.null⟩)
    (some "tok") "d" "cmd" (by decide)).2 (by decide)).2

lemma sanity_check_trace_le_one (w : Website) (api : Api) (tok : Option String)
    (d : String) (nk : Bool) :
    (w.sanity_check api tok d nk).1.length ≤ 1 := by
  by_cases h1 : (tok.getD "").isEmpty = true
  · simp [Website.sanity_check, h1]
  · by_cases h2 : nk = true
    · simp [Website.sanity_check, h1, h2]
    · by_cases h3 : (api (w.probeRequest d)).status_code = 200 <;>
        simp [Website.sanity_check, h1, h2, h3]

lemma sanity_check_nuke_trace (w : Website) (api : Api) (tok : Option String)
    (d : String) :
    (w.sanity_check api tok d true).1 = [] := by
  by_cases h1 : (tok.getD "").isEmpty = true <;>
    simp [Website.sanity_check, h1]

lemma create_trace_le_two (w : Website) (api : Api) (tok : Option String)
    (d c : String) (nk : Bool) :
    (w.create api tok d c nk).1.length ≤ 2 := by
  have hs := sanity_check_trace_le_one w api tok d nk
  unfold Website.create
  cases h : (w.sanity_check api tok d nk).2 <;> simp [h] <;> omega

lemma create_trace_nuke_le_one (w : Website) (api : Api) (tok : Option String)
    (d c : String) :
    (w.create api tok d c true).1.length ≤ 1 := by
  have hs := sanity_check_nuke_trace w api tok d
  unfold Website.create
  cases h : (w.sanity_check api tok d true).2 <;> simp [h, hs]

/-- C4: Website.create with nuke=true skips the existence probe: with a token
present it issues exactly the one create POST and the websites item endpoint
receives zero GET calls.  More generally every public method of both managers
issues at most two network calls, and a second call happens only on the
create path with nuke=false. -/
theorem C4_call_budget (s : Schedule) (w : Website) (api : Api)
    (api_token : Option String) (params : Json) (task_id : Int)
    (domain_name command : String) (nuke : Bool) :
    (s.create api params).1.length = 1 ∧
    (s.delete api task_id).1.length = 1 ∧
    (s.get_list api).1.length = 1 ∧
    (s.get_specs api task_id).1.length = 1 ∧
    (s.update api task_id params).1.length = 1 ∧
    (w.get api domain_name).1.length = 1 ∧
    (w.list api).1.length = 1 ∧
    (w.reload api domain_name).1.length = 1 ∧
    (w.auto_ssl api domain_name).1.length = 1 ∧
    (w.get_ssl_info api domain_name).1.length = 1 ∧
    (w.delete api domain_name).1.length = 1 ∧
    (w.sanity_check api api_token domain_name nuke).1.length ≤ 1 ∧
    (w.create api api_token domain_name command nuke).1.length ≤ 2 ∧
    ((w.create api api_token domain_name command nuke).1.length = 2 →
      nuke = false) ∧
    ((api_token.getD "").isEmpty = false →
      w.create api api_token domain_name command true =
        ([w.createRequest domain_name command],
          Except.ok (api (w.createRequest domain_name command)).json) ∧
      ((w.create api api_token domain_name command true).1.filter
          (fun q =>
            q.url == (w.probeRequest domain_name).url && q.method == "get")).length
        = 0) := by
  refine ⟨rfl, rfl, rfl, rfl, rfl, rfl, rfl, rfl, rfl, rfl, rfl,
    sanity_check_trace_le_one w api api_token domain_name nuke,
    create_trace_le_two w api api_token domain_name command nuke, ?_, ?_⟩
  · intro h2
    cases nuke with
    | false => rfl
    | true =>
      have := create_trace_nuke_le_one w api api_token domain_name command
      omega
  · intro htok
    have hc : w.create api api_token domain_name command true =
        ([w.createRequest domain_name command],
          Except.ok (api (w.createRequest domain_name command)).json) := by
      simp [Website.create, Website.sanity_check, htok]
    refine ⟨hc, ?_⟩
    rw [hc]
    simp [Website.createRequest, List.filter]

/-- C4 witness: with a token present, create with nuke=true issues exactly
the create POST and zero GETs on the item endpoint. -/
theorem C4_call_budget_witness :
    Website.create ⟨"wb/", "db/"⟩ (fun _ => ⟨200, "body", Json.null⟩)
        (some "tok") "d" "cmd" true =
      ([Website.createRequest ⟨"wb/", "db/"⟩ "d" "cmd"],
        Except.ok Json.null) :=
  ((C4_call_budget ⟨"u/"⟩ ⟨"wb/", "db/"⟩ (fun _ => ⟨200, "body", Json.null⟩)
      (some "tok") Json.null 3 "d" "cmd" true).2.2.2.2.2.2.2.2.2.2.2.2.2.2
    (by decide)).1
